import Mathlib

/-!
Verification of the voice-activity detector (VAD) and the recording-session
logic of the voice-assistant repository.

The detector is a shallow embedding of `VoiceActivityDetector` in
`fresh-voice-assistant/utils/voiceActivityDetection.ts`: the mutable object
becomes an explicit state record, each `detectVoice` invocation / silence-timer
callback / `stop()` call becomes one step of a transition function, and the
emitted `VoiceStarted` / `VoiceEnded` callbacks become an event log tagged with
the wall-clock time (`Date.now()`) of the step.  JavaScript numbers holding
audio magnitudes are modelled as rationals; wall-clock instants as naturals.

The recording-session logic is embedded from the VAD-enabled recorder island
(the second document stored in `scripts/setup/stt/coqui-stt.ts`) and from the
`VoiceRecordingSimulator` in `fresh-voice-assistant/tests/voiceRecording.test.ts`.
-/

namespace VoiceAssistant

/-- Events emitted by the detector through its two callbacks. -/
inductive VADEvent
  | voiceStarted
  | voiceEnded
deriving DecidableEq, Repr

/-- The detector configuration object (`this.config` in the source).
`smoothingTimeConstant` and `fftSize` only parameterise the external analyser
node and never enter the detection arithmetic, so they are carried but unused. -/
structure VADConfig where
  voiceThreshold : ℚ
  silenceDelay : ℕ
  minSpeechDuration : ℕ
  smoothingTimeConstant : ℚ := 4/5
  fftSize : ℕ := 2048
deriving DecidableEq, Repr

/-- The mutable fields of a `VoiceActivityDetector` instance.
`silenceTimeout` models whether the one-shot silence timer handle is non-null. -/
structure VADState where
  isListening : Bool
  silenceTimeout : Bool
  speechStartTime : Option ℕ
  isSpeaking : Bool
  lastVoiceEndTime : ℕ
  volumeHistory : List ℚ
  historySize : ℕ
  sampleRate : ℚ
  config : VADConfig
deriving DecidableEq, Repr

/-- Width in Hz of one frequency bin: `(sampleRate / 2) / frequencyBinCount`. -/
def binHz (sampleRate : ℚ) (binCount : ℕ) : ℚ :=
  sampleRate / 2 / binCount

/-- Contribution of bin `i` holding magnitude `v` to `voiceSum`: counted only
when the bin's center frequency `i * binHz` lies in 85–3000 Hz, with a 1.5
weight on 100–1000 Hz and weight 1 elsewhere in the band. -/
def binContrib (sampleRate : ℚ) (n i v : ℕ) : ℚ :=
  if 85 ≤ (i : ℚ) * binHz sampleRate n ∧ (i : ℚ) * binHz sampleRate n ≤ 3000 then
    (v : ℚ) *
      (if 100 ≤ (i : ℚ) * binHz sampleRate n ∧ (i : ℚ) * binHz sampleRate n ≤ 1000
        then 3/2 else 1)
  else 0

/-- The `voiceSum` accumulated by the `detectVoice` loop, starting at bin
index `i` (with `n` the total bin count). -/
def voiceSumFrom (sampleRate : ℚ) (n : ℕ) : ℕ → List ℕ → ℚ
  | _, [] => 0
  | i, v :: rest => binContrib sampleRate n i v + voiceSumFrom sampleRate n (i + 1) rest

/-- The `voiceSum` accumulated over the whole frequency snapshot. -/
def voiceSum (sampleRate : ℚ) (data : List ℕ) : ℚ :=
  voiceSumFrom sampleRate data.length 0 data

/-- The plain `sum` of all bin magnitudes, as a rational. -/
def natSum : List ℕ → ℚ
  | [] => 0
  | v :: rest => (v : ℚ) + natSum rest

/-- `averageVolume = sum / dataArray.length`. -/
def averageVolume (data : List ℕ) : ℚ :=
  natSum data / data.length

/-- `voiceAverage = voiceSum / (3000 / binHz)` — note the divisor is the
number of bins spanning 0–3000 Hz, exactly as written in the source. -/
def voiceAverage (sampleRate : ℚ) (data : List ℕ) : ℚ :=
  voiceSum sampleRate data / (3000 / binHz sampleRate data.length)

/-- Maximum of two rationals, written with an explicit comparison so that it
evaluates by kernel reduction (`Math.max` on ordinary numbers). -/
def jsMax (a b : ℚ) : ℚ := if a ≤ b then b else a

/-- `effectiveVolume = Math.max(averageVolume, voiceAverage * 0.8)`. -/
def effectiveVolume (sampleRate : ℚ) (data : List ℕ) : ℚ :=
  jsMax (averageVolume data) (voiceAverage sampleRate data * (4/5))

/-- Sum of a list of rationals (written recursively for transparent
evaluation). -/
def ratSum : List ℚ → ℚ
  | [] => 0
  | v :: rest => v + ratSum rest

/-- Arithmetic mean of the volume-history buffer: the `smoothedVolume`
moving average of `detectVoice`. -/
def histMean (l : List ℚ) : ℚ := ratSum l / l.length

/-- Push one effective-volume sample: `push`, then `shift` once the buffer
exceeds `historySize`. -/
def pushHistory (s : VADState) (eff : ℚ) : List ℚ :=
  if s.historySize < (s.volumeHistory ++ [eff]).length then
    (s.volumeHistory ++ [eff]).drop 1
  else s.volumeHistory ++ [eff]

/-- The smoothed volume a frame step will compute: the moving average of the
history buffer after pushing the frame's effective volume. -/
def smoothedAfter (s : VADState) (data : List ℕ) : ℚ :=
  histMean (pushHistory s (effectiveVolume s.sampleRate data))

/-- `handleVoiceStart`: suppressed inside the 1000 ms cooldown after
`lastVoiceEndTime`, otherwise transitions to Speaking, records the speech
start, clears a pending silence timer and emits `VoiceStarted`. -/
def handleVoiceStart (now : ℕ) (s : VADState) : VADState × List (ℕ × VADEvent) :=
  if now - s.lastVoiceEndTime < 1000 then (s, [])
  else
    ({s with isSpeaking := true, speechStartTime := some now, silenceTimeout := false},
      [(now, VADEvent.voiceStarted)])

/-- `handlePotentialVoiceEnd`: arms the one-shot silence timer unless one is
already pending. -/
def handlePotentialVoiceEnd (s : VADState) : VADState :=
  if s.silenceTimeout then s else {s with silenceTimeout := true}

/-- One invocation of `detectVoice` on a frequency snapshot `data`, at wall
clock `now`: returns immediately when not listening, otherwise pushes the
frame's effective volume into the history and branches on whether the smoothed
volume exceeds the threshold (`isVoiceDetected`) and on `isSpeaking`, exactly
following the source's if/else-if chain. -/
def detectStep (now : ℕ) (data : List ℕ) (s : VADState) :
    VADState × List (ℕ × VADEvent) :=
  if s.isListening = false then (s, [])
  else
    let s1 : VADState := {s with volumeHistory := pushHistory s (effectiveVolume s.sampleRate data)}
    if s.config.voiceThreshold < smoothedAfter s data then
      if s.isSpeaking then ({s1 with silenceTimeout := false}, [])
      else handleVoiceStart now s1
    else
      if s.isSpeaking then (handlePotentialVoiceEnd s1, [])
      else (s1, [])

/-- The silence-timer callback, firing at wall clock `now`.  It runs only when
a timer is pending (`detectVoice` and `stop` cancel it otherwise).  A valid
utterance (`now - speechStartTime >= minSpeechDuration`) records
`lastVoiceEndTime` and emits `VoiceEnded`; a too-short one is discarded
silently. -/
def silenceTimerFire (now : ℕ) (s : VADState) : VADState × List (ℕ × VADEvent) :=
  if s.silenceTimeout = false then (s, [])
  else
    match s.speechStartTime with
    | some t0 =>
        if s.config.minSpeechDuration ≤ now - t0 then
          ({s with isSpeaking := false, lastVoiceEndTime := now, silenceTimeout := false},
            [(now, VADEvent.voiceEnded)])
        else
          ({s with isSpeaking := false, silenceTimeout := false}, [])
    | none => ({s with isSpeaking := false, silenceTimeout := false}, [])

/-- `stop()`: halts listening, cancels a pending silence timer, and emits a
final `VoiceEnded` exactly when currently Speaking.  It does not touch
`lastVoiceEndTime`, `speechStartTime` or the volume history. -/
def stopStep (now : ℕ) (s : VADState) : VADState × List (ℕ × VADEvent) :=
  if s.isSpeaking then
    ({s with isListening := false, silenceTimeout := false, isSpeaking := false},
      [(now, VADEvent.voiceEnded)])
  else ({s with isListening := false, silenceTimeout := false}, [])

/-- `start(stream)`: begins frame consumption. -/
def startStep (s : VADState) : VADState := {s with isListening := true}

/-- `getCurrentVolume()`: `0` when not listening; otherwise the plain average
of a freshly read frequency snapshot (`freqSum / dataArray.length`).  The RMS
of the time-domain read and the max bin computed in the source are dead values
(stored into unused locals) and are omitted. -/
def getCurrentVolume (s : VADState) (freqData : List ℕ) : ℚ :=
  if s.isListening = false then 0
  else ((freqData.map fun v => (v : ℚ)).sum) / freqData.length

/-- The inputs driving one detector instance: periodic frames, silence-timer
callbacks, and stop requests, each tagged with its wall-clock time. -/
inductive VADInput
  | frame (now : ℕ) (data : List ℕ)
  | timer (now : ℕ)
  | stopReq (now : ℕ)
deriving DecidableEq, Repr

/-- Wall-clock time of an input. -/
def VADInput.time : VADInput → ℕ
  | frame now _ => now
  | timer now => now
  | stopReq now => now

/-- One step of the detector on one input. -/
def vadStep : VADInput → VADState → VADState × List (ℕ × VADEvent)
  | .frame now data, s => detectStep now data s
  | .timer now, s => silenceTimerFire now s
  | .stopReq now, s => stopStep now s

/-- Run the detector over a list of inputs, accumulating the event log. -/
def vadRun (s : VADState) : List VADInput → VADState × List (ℕ × VADEvent)
  | [] => (s, [])
  | i :: rest =>
      let p := vadStep i s
      let q := vadRun p.1 rest
      (q.1, p.2 ++ q.2)

/-- The detector state right after construction (before `start`). -/
def initialVAD (sampleRate : ℚ) (config : VADConfig) : VADState :=
  { isListening := false
    silenceTimeout := false
    speechStartTime := none
    isSpeaking := false
    lastVoiceEndTime := 0
    volumeHistory := []
    historySize := 10
    sampleRate := sampleRate
    config := config }

/-- The default configuration hard-coded in the source. -/
def defaultConfig : VADConfig :=
  { voiceThreshold := 30, silenceDelay := 1500, minSpeechDuration := 300 }

/-- Number of bins (among those of the snapshot, starting at index `i`) whose
center frequency lies in the 85–3000 Hz voice band.  Written from the spec
wording of claim C3, which asks for the mean over exactly those bins. -/
def bandCountFrom (sampleRate : ℚ) (n : ℕ) : ℕ → List ℕ → ℕ
  | _, [] => 0
  | i, _ :: rest =>
      (if 85 ≤ (i : ℚ) * binHz sampleRate n ∧ (i : ℚ) * binHz sampleRate n ≤ 3000
        then 1 else 0) + bandCountFrom sampleRate n (i + 1) rest

/-- Number of voice-band bins of a whole snapshot. -/
def bandCount (sampleRate : ℚ) (data : List ℕ) : ℕ :=
  bandCountFrom sampleRate data.length 0 data

/-- The voice-band mean as the claim words it: the weighted sum over exactly
the bins in the 85–3000 Hz band, divided by the number of such bins. -/
def voiceBandMeanSpec (sampleRate : ℚ) (data : List ℕ) : ℚ :=
  voiceSum sampleRate data / bandCount sampleRate data

/-- The effective volume as claim C3 states it:
`max(overallMean, voiceBandMean * 0.8)` with `voiceBandMean` the mean over
exactly the voice-band bins. -/
def effectiveVolumeSpec (sampleRate : ℚ) (data : List ℕ) : ℚ :=
  jsMax (averageVolume data) (voiceBandMeanSpec sampleRate data * (4/5))

/-- Monotonicity of a timed input trace: every input time is at least the
given lower bound, and times are nondecreasing along the trace. -/
def TimesMono : ℕ → List VADInput → Prop
  | _, [] => True
  | t, i :: rest => t ≤ i.time ∧ TimesMono i.time rest

/-- Orderedness constraint between two log entries: a `VoiceEnded` at `a` is
followed by a `VoiceStarted` at `b` only after the 1000 ms cooldown. -/
def cooldownOK (a b : ℕ × VADEvent) : Prop :=
  a.2 = VADEvent.voiceEnded → b.2 = VADEvent.voiceStarted → a.1 + 1000 ≤ b.1

/-- No `VoiceStarted` in the log occurs less than 1000 ms after any earlier
`VoiceEnded`. -/
def NoEarlyStart (log : List (ℕ × VADEvent)) : Prop :=
  log.Pairwise cooldownOK

/-- Invariant carried along a detector run: the log so far has no early
start, every logged time is bounded by the current time, while the detector
is listening every logged `VoiceEnded` is no later than `lastVoiceEndTime`,
and once it has stopped no silence timer is pending. -/
structure VADInv (s : VADState) (log : List (ℕ × VADEvent)) (tcur : ℕ) : Prop where
  noEarly : NoEarlyStart log
  logBound : ∀ p ∈ log, p.1 ≤ tcur
  endsBound : s.isListening = true →
    ∀ p ∈ log, p.2 = VADEvent.voiceEnded → p.1 ≤ s.lastVoiceEndTime
  timerOff : s.isListening = false → s.silenceTimeout = false

namespace Recorder

/-- Result of a `stopRecording` call on the VAD-enabled recorder island. -/
inductive StopOutcome
  | tooShort
  | stopped
  | noop
deriving DecidableEq, Repr

/-- State of the recorder island: whether a `MediaRecorder` exists, the
`isRecording` signal, the VAD-mode flag, the `recordingStartTime` ref and the
chunk buffer (chunk byte sizes). -/
structure RecState where
  hasRecorder : Bool
  isRecording : Bool
  isVadEnabled : Bool
  recordingStartTime : Option ℕ
  chunks : List ℕ
deriving DecidableEq, Repr

/-- `stopRecording` from the VAD-enabled recorder island: a stop while a
recorder exists and `isRecording` holds is rejected — recording continues —
when the elapsed duration is under the 500 ms minimum and VAD mode is off
(i.e. the stop is a manual one); otherwise the recorder is stopped. -/
def stopRecording (now : ℕ) (s : RecState) : RecState × StopOutcome :=
  if s.hasRecorder = true ∧ s.isRecording = true then
    if (match s.recordingStartTime with
        | some t => now - t
        | none => 0) < 500 ∧ s.isVadEnabled = false then
      (s, StopOutcome.tooShort)
    else
      ({s with isRecording := false, recordingStartTime := none}, StopOutcome.stopped)
  else (s, StopOutcome.noop)

/-- State of the `VoiceRecordingSimulator` from the regression tests, plus
the state of its `MockMediaRecorder`. -/
structure SimState where
  hasRecorder : Bool
  recorderRecording : Bool
  isRecording : Bool
  isRecorderActive : Bool
  chunks : List ℕ
deriving DecidableEq, Repr

/-- The simulator's `ondataavailable` handler: a delivered chunk is appended
only while `isRecorderActive` holds and the chunk is non-empty. -/
def onDataAvailable (s : SimState) (size : ℕ) : SimState :=
  if s.isRecorderActive = false then s
  else if 0 < size then {s with chunks := s.chunks ++ [size]} else s

/-- `MockMediaRecorder.stop` together with the simulator's `onstop` handler:
an inactive recorder returns immediately; otherwise the recorder becomes
inactive and stops accepting chunks. -/
def recorderStop (s : SimState) : SimState :=
  if s.recorderRecording = false then s
  else {s with recorderRecording := false, isRecorderActive := false}

/-- The simulator's `stopRecording`: stops the mock recorder when it is still
recording, then clears `isRecording`. -/
def simStopRecording (s : SimState) : SimState :=
  if s.hasRecorder = true ∧ s.isRecording = true then
    {(if s.recorderRecording = true then recorderStop s else s) with isRecording := false}
  else s

/-- Deliver a sequence of (possibly late) chunks to the simulator. -/
def deliverAll (s : SimState) (sizes : List ℕ) : SimState :=
  sizes.foldl onDataAvailable s

/-- Outcome of `processRecording`. -/
inductive ProcOutcome
  | noChunks
  | tooSmall
  | processed
deriving DecidableEq, Repr

/-- Result of processing a completed session: the branch taken, whether the
downstream sink (the network submission) runs, and the `isProcessing` /
`isRecording` flags after the call (both cleared on every path). -/
structure ProcResult where
  outcome : ProcOutcome
  sinkInvoked : Bool
  isProcessing : Bool
  isRecording : Bool
deriving DecidableEq, Repr

/-- `processRecording` as implemented by both the test simulator and the
VAD-enabled island: an empty chunk list returns early ("no audio chunks
received"); a total below 1024 bytes fails ("audio too small") without
reaching the submission; otherwise the concatenated audio is submitted. -/
def processRecording (chunks : List ℕ) : ProcResult :=
  if chunks.length = 0 then ⟨ProcOutcome.noChunks, false, false, false⟩
  else if chunks.sum < 1024 then ⟨ProcOutcome.tooSmall, false, false, false⟩
  else ⟨ProcOutcome.processed, true, false, false⟩

end Recorder

/-- A configuration matching the concrete test scenario of the spec:
threshold 30, silence delay 100 ms, minimum speech duration 300 ms. -/
def blipConfig : VADConfig :=
  { voiceThreshold := 30, silenceDelay := 100, minSpeechDuration := 300 }

/-- A freshly started detector with the blip-scenario configuration. -/
def blipInit : VADState := startStep (initialVAD 12000 blipConfig)

/-- A run in which speech starts, drops below threshold, and the silence
timer fires only 148 ms after speech start (under the 300 ms minimum),
after which the detector is stopped. -/
def blipInputs : List VADInput :=
  [VADInput.frame 2000 [100, 100, 100, 100],
   VADInput.frame 2016 [0, 0, 0, 0],
   VADInput.frame 2032 [0, 0, 0, 0],
   VADInput.frame 2048 [0, 0, 0, 0],
   VADInput.timer 2148,
   VADInput.stopReq 2200]

/-- A run with a valid utterance: speech starts at 2000, drops, and the
silence timer fires at 2500 (500 ms ≥ the 300 ms minimum). -/
def validEndInputs : List VADInput :=
  [VADInput.frame 2000 [100, 100, 100, 100],
   VADInput.frame 2016 [0, 0, 0, 0],
   VADInput.frame 2032 [0, 0, 0, 0],
   VADInput.frame 2048 [0, 0, 0, 0],
   VADInput.timer 2500]

/-- A running detector state obtained by processing one loud frame. -/
def c1State : VADState :=
  (vadStep (VADInput.frame 2000 [0, 100, 0, 0]) (startStep (initialVAD 12000 defaultConfig))).1

/-- A listening detector state that is mid-utterance with a pending silence
timer (speech began at 2000). -/
def midSpeechState : VADState :=
  { startStep (initialVAD 12000 defaultConfig) with
      isSpeaking := true, speechStartTime := some 2000, silenceTimeout := true }

/-- A listening detector state that is Speaking (speech began at 600) and has
never recorded a timer-driven voice end. -/
def speakingState : VADState :=
  { startStep (initialVAD 12000 defaultConfig) with
      isSpeaking := true, speechStartTime := some 600 }

/-- A recorder island state 200 ms into a manual (non-VAD) recording. -/
def manualRecState : Recorder.RecState :=
  { hasRecorder := true, isRecording := true, isVadEnabled := false,
    recordingStartTime := some 1000, chunks := [512] }

/-- A simulator state in the middle of a normal recording. -/
def simRecordingState : Recorder.SimState :=
  { hasRecorder := true, recorderRecording := true, isRecording := true,
    isRecorderActive := true, chunks := [1932, 1932] }

lemma natSum_eq (l : List ℕ) : natSum l = (l.map fun v => (v : ℚ)).sum := by
  induction l with
  | nil => simp [natSum]
  | cons v rest ih => simp [natSum, ih]

lemma voiceSumFrom_eq (sr : ℚ) (n : ℕ) (data : List ℕ) : ∀ i : ℕ,
    voiceSumFrom sr n i data =
      ∑ k ∈ Finset.range data.length, binContrib sr n (i + k) (data.getD k 0) := by
  induction data with
  | nil => simp [voiceSumFrom]
  | cons v rest ih =>
      intro i
      rw [voiceSumFrom, ih (i + 1), List.length_cons, Finset.sum_range_succ']
      simp only [List.getD_cons_succ, List.getD_cons_zero, Nat.add_zero]
      rw [add_comm]
      congr 1
      exact Finset.sum_congr rfl fun k _ => by rw [show i + 1 + k = i + (k + 1) by omega]

lemma voiceSum_eq (sr : ℚ) (data : List ℕ) :
    voiceSum sr data =
      ∑ k ∈ Finset.range data.length, binContrib sr data.length k (data.getD k 0) := by
  rw [voiceSum, voiceSumFrom_eq]
  simp

/-- C1 counterexample: a running detector (started, one loud frame processed)
has last smoothed volume 40, yet `getCurrentVolume` on a fresh read of the
very same frequency snapshot returns the plain bin average 25 — not the
smoothed volume. -/
theorem getCurrentVolume_not_smoothed_cex :
    c1State.isListening = true ∧
    histMean c1State.volumeHistory = 40 ∧
    getCurrentVolume c1State [0, 100, 0, 0] = 25 ∧
    getCurrentVolume c1State [0, 100, 0, 0] ≠ histMean c1State.volumeHistory := by
  norm_num [c1State, vadStep, detectStep, startStep, initialVAD, defaultConfig,
    smoothedAfter, pushHistory, histMean, ratSum, effectiveVolume, averageVolume,
    voiceAverage, voiceSum, voiceSumFrom, binContrib, natSum, binHz, jsMax,
    handleVoiceStart, getCurrentVolume]

/-- C1 (amended): `getCurrentVolume` returns 0 when the detector is not
running, and for a running detector it returns the arithmetic mean of the
freshly read frequency snapshot — which is in general different from the last
smoothed volume. -/
theorem getCurrentVolume_fresh_mean (s : VADState) (freqData : List ℕ) :
    (s.isListening = false → getCurrentVolume s freqData = 0) ∧
    (s.isListening = true → getCurrentVolume s freqData = averageVolume freqData) := by
  constructor
  · intro h
    simp [getCurrentVolume, h]
  · intro h
    simp [getCurrentVolume, h, averageVolume, natSum_eq]

theorem getCurrentVolume_fresh_mean_witness :
    (startStep (initialVAD 12000 defaultConfig)).isListening = true ∧
    getCurrentVolume (startStep (initialVAD 12000 defaultConfig)) [2, 4] =
      averageVolume [2, 4] :=
  ⟨rfl, (getCurrentVolume_fresh_mean (startStep (initialVAD 12000 defaultConfig)) [2, 4]).2 rfl⟩

/-- C3 counterexample: on a 4-bin snapshot at sample rate 2000 Hz the
detection step pushes effective volume 75 (the source divides the weighted
voice sum by `3000 / binHz` = 12), whereas the claim's formula — dividing by
the number of bins actually inside 85–3000 Hz, here 3 — yields 120. -/
theorem effectiveVolume_divisor_cex :
    (vadStep (VADInput.frame 2000 [0, 100, 100, 100])
        (startStep (initialVAD 2000 defaultConfig))).1.volumeHistory =
      [effectiveVolume 2000 [0, 100, 100, 100]] ∧
    effectiveVolume 2000 [0, 100, 100, 100] = 75 ∧
    effectiveVolumeSpec 2000 [0, 100, 100, 100] = 120 ∧
    effectiveVolume 2000 [0, 100, 100, 100] ≠ effectiveVolumeSpec 2000 [0, 100, 100, 100] := by
  norm_num [vadStep, detectStep, startStep, initialVAD, defaultConfig, smoothedAfter,
    pushHistory, histMean, ratSum, effectiveVolume, effectiveVolumeSpec, averageVolume,
    voiceAverage, voiceBandMeanSpec, bandCount, bandCountFrom, voiceSum, voiceSumFrom,
    binContrib, natSum, binHz, jsMax, handleVoiceStart, handlePotentialVoiceEnd]

/-- C3 (amended): the per-frame effective volume is
`max(overallMean, voiceBandSum / (3000 / binHz) * 0.8)`, where `voiceBandSum`
is the weighted sum over exactly the bins whose center frequency lies in
85–3000 Hz (weight 1.5 in 100–1000 Hz, else 1) — i.e. the voice-band term is
divided by the bin count of the full 0–3000 Hz span, not by the number of
bins inside the band. -/
theorem effectiveVolume_closed_form (sr : ℚ) (data : List ℕ) :
    effectiveVolume sr data =
      jsMax ((data.map fun v => (v : ℚ)).sum / data.length)
        ((∑ k ∈ Finset.range data.length, binContrib sr data.length k (data.getD k 0)) /
          (3000 / binHz sr data.length) * (4/5)) := by
  rw [effectiveVolume, averageVolume, voiceAverage, voiceSum_eq, natSum_eq]

/-- C6: when the silence timer fires strictly less than `minSpeechDuration`
after the recorded speech start, no event is emitted and the detector drops
back to Silent. -/
theorem short_blip_no_voiceEnded (now t0 : ℕ) (s : VADState)
    (htimer : s.silenceTimeout = true) (hstart : s.speechStartTime = some t0)
    (hspeak : s.isSpeaking = true) (hshort : now - t0 < s.config.minSpeechDuration) :
    (vadStep (VADInput.timer now) s).2 = [] ∧
    (vadStep (VADInput.timer now) s).1.isSpeaking = false := by
  have hnot : ¬ s.config.minSpeechDuration ≤ now - t0 := by omega
  simp [vadStep, silenceTimerFire, htimer, hstart, hnot]

theorem short_blip_no_voiceEnded_witness :
    midSpeechState.silenceTimeout = true ∧
    midSpeechState.speechStartTime = some 2000 ∧
    midSpeechState.isSpeaking = true ∧
    2100 - 2000 < midSpeechState.config.minSpeechDuration ∧
    (vadStep (VADInput.timer 2100) midSpeechState).2 = [] ∧
    (vadStep (VADInput.timer 2100) midSpeechState).1.isSpeaking = false := by
  refine ⟨rfl, rfl, rfl, by decide, ?_, ?_⟩
  · exact (short_blip_no_voiceEnded 2100 2000 midSpeechState rfl rfl rfl (by decide)).1
  · exact (short_blip_no_voiceEnded 2100 2000 midSpeechState rfl rfl rfl (by decide)).2

/-- C7 counterexample: an execution in which a `VoiceStarted` is emitted, the
utterance is then discarded as too short, and `stop()` ends the run — the
final log holds a `VoiceStarted` with no matching `VoiceEnded`. -/
theorem unmatched_voiceStarted_cex :
    (vadRun blipInit blipInputs).2 = [(2000, VADEvent.voiceStarted)] ∧
    (vadRun blipInit blipInputs).1.isListening = false ∧
    (vadRun blipInit blipInputs).1.isSpeaking = false := by
  norm_num [vadRun, vadStep, detectStep, blipInit, blipInputs, blipConfig, startStep,
    initialVAD, smoothedAfter, pushHistory, histMean, ratSum, effectiveVolume,
    averageVolume, voiceAverage, voiceSum, voiceSumFrom, binContrib, natSum, binHz,
    jsMax, handleVoiceStart, handlePotentialVoiceEnd, silenceTimerFire, stopStep]

/-- C7 (amended): `stop()` always cancels a pending silence timer, halts
listening, and emits a final `VoiceEnded` if and only if the detector is
Speaking at the moment of the call; an execution may nevertheless end with a
`VoiceStarted` lacking a matching `VoiceEnded` when a too-short utterance was
discarded earlier. -/
theorem stop_cancels_timer_ends_iff_speaking (now : ℕ) (s : VADState) :
    (stopStep now s).1.silenceTimeout = false ∧
    (stopStep now s).1.isListening = false ∧
    (stopStep now s).1.isSpeaking = false ∧
    (stopStep now s).2 = (if s.isSpeaking then [(now, VADEvent.voiceEnded)] else []) := by
  by_cases h : s.isSpeaking <;> simp [stopStep, h]

/-- C4 counterexample: after a valid utterance resolves with a `VoiceEnded`
at 2500, `speechStartTime` is still `some 2000` — the source never clears it. -/
theorem speechStartTime_not_cleared_cex :
    (vadRun blipInit validEndInputs).2 =
      [(2000, VADEvent.voiceStarted), (2500, VADEvent.voiceEnded)] ∧
    (vadRun blipInit validEndInputs).1.speechStartTime = some 2000 := by
  norm_num [vadRun, vadStep, detectStep, blipInit, validEndInputs, blipConfig, startStep,
    initialVAD, smoothedAfter, pushHistory, histMean, ratSum, effectiveVolume,
    averageVolume, voiceAverage, voiceSum, voiceSumFrom, binContrib, natSum, binHz,
    jsMax, handleVoiceStart, handlePotentialVoiceEnd, silenceTimerFire, stopStep]

/-- C4 (amended): every step either leaves `speechStartTime` unchanged or is
a frame step performing the Silent-to-Speaking transition, which sets it to
the current time and emits `VoiceStarted`; in particular `speechStartTime` is
never cleared. -/
theorem speechStartTime_only_set_on_transition (i : VADInput) (s : VADState) :
    (vadStep i s).1.speechStartTime = s.speechStartTime ∨
    ∃ now data, i = VADInput.frame now data ∧ s.isSpeaking = false ∧
      (vadStep i s).1.isSpeaking = true ∧
      (vadStep i s).1.speechStartTime = some now ∧
      (vadStep i s).2 = [(now, VADEvent.voiceStarted)] := by
  cases i with
  | frame now data =>
      rw [vadStep, detectStep]
      split_ifs with hl hdet hsp hsp2
      · exact Or.inl rfl
      · exact Or.inl rfl
      · rw [handleVoiceStart]
        split_ifs with hcool
        · exact Or.inl rfl
        · exact Or.inr ⟨now, data, rfl, by simpa using hsp, rfl, rfl, rfl⟩
      · exact Or.inl (by simp only [handlePotentialVoiceEnd]; split_ifs <;> rfl)
      · exact Or.inl rfl
  | timer now =>
      refine Or.inl ?_
      rw [vadStep, silenceTimerFire]
      split_ifs with h
      · rfl
      · rcases h2 : s.speechStartTime with _ | t0 <;> simp [h2] <;> split_ifs <;> rfl
  | stopReq now =>
      refine Or.inl ?_
      rw [vadStep, stopStep]
      split_ifs <;> rfl

/-- C10: `stop()` on a Speaking detector synthesizes a `VoiceEnded` yet
leaves `lastVoiceEndTime` untouched, so after a restart a frame whose
smoothed volume exceeds the threshold emits `VoiceStarted` at any time `t`
past the (old) cooldown, regardless of how soon `t` follows the stop. -/
theorem stop_does_not_arm_cooldown (s : VADState) (now t : ℕ) (data : List ℕ)
    (hspeak : s.isSpeaking = true)
    (hcool : s.lastVoiceEndTime + 1000 ≤ t)
    (hvol : s.config.voiceThreshold < smoothedAfter s data) :
    (stopStep now s).2 = [(now, VADEvent.voiceEnded)] ∧
    (stopStep now s).1.lastVoiceEndTime = s.lastVoiceEndTime ∧
    (vadStep (VADInput.frame t data) (startStep (stopStep now s).1)).2 =
      [(t, VADEvent.voiceStarted)] := by
  have hncool : ¬ (t - s.lastVoiceEndTime < 1000) := by omega
  have hvol3 := hvol
  simp only [smoothedAfter] at hvol3
  simp [smoothedAfter, pushHistory, histMean] at hvol3
  refine ⟨by simp [stopStep, hspeak], by simp [stopStep, hspeak], ?_⟩
  simp [vadStep, detectStep, startStep, stopStep, hspeak, handleVoiceStart, hncool,
    smoothedAfter, pushHistory, histMean, hvol3]

theorem stop_does_not_arm_cooldown_witness :
    speakingState.isSpeaking = true ∧
    speakingState.lastVoiceEndTime + 1000 ≤ 1501 ∧
    1501 - 1500 < 1000 ∧
    (stopStep 1500 speakingState).2 = [(1500, VADEvent.voiceEnded)] ∧
    (vadStep (VADInput.frame 1501 [100, 100, 100, 100])
        (startStep (stopStep 1500 speakingState).1)).2 =
      [(1501, VADEvent.voiceStarted)] := by
  have hvol : speakingState.config.voiceThreshold <
      smoothedAfter speakingState [100, 100, 100, 100] := by
    norm_num [speakingState, startStep, initialVAD, defaultConfig, smoothedAfter,
      pushHistory, histMean, ratSum, effectiveVolume, averageVolume, voiceAverage,
      voiceSum, voiceSumFrom, binContrib, natSum, binHz, jsMax]
  refine ⟨rfl, by decide, by decide, ?_, ?_⟩
  · exact (stop_does_not_arm_cooldown speakingState 1500 1501 [100, 100, 100, 100]
      rfl (by decide) hvol).1
  · exact (stop_does_not_arm_cooldown speakingState 1500 1501 [100, 100, 100, 100]
      rfl (by decide) hvol).2.2

lemma onDataAvailable_inactive {s : Recorder.SimState} (h : s.isRecorderActive = false)
    (size : ℕ) : Recorder.onDataAvailable s size = s := by
  simp [Recorder.onDataAvailable, h]

lemma deliverAll_inactive {s : Recorder.SimState} (h : s.isRecorderActive = false)
    (sizes : List ℕ) : Recorder.deliverAll s sizes = s := by
  induction sizes with
  | nil => rfl
  | cons size rest ih =>
      rw [Recorder.deliverAll, List.foldl_cons, onDataAvailable_inactive h]
      exact ih

lemma simStopRecording_inactive {s : Recorder.SimState}
    (h1 : s.hasRecorder = true) (h2 : s.isRecording = true) (h3 : s.recorderRecording = true) :
    (Recorder.simStopRecording s).isRecorderActive = false := by
  simp [Recorder.simStopRecording, Recorder.recorderStop, h1, h2, h3]

/-- C2: a manual stop request (VAD mode off) issued less than 500 ms after
`recordingStartTime` is rejected with the too-short outcome, and the whole
recorder state — in particular `isRecording` and the chunk buffer — is left
unchanged. -/
theorem manual_stop_too_short_rejected (now t : ℕ) (s : Recorder.RecState)
    (hrec : s.hasRecorder = true) (hon : s.isRecording = true)
    (hman : s.isVadEnabled = false) (hstart : s.recordingStartTime = some t)
    (hshort : now - t < 500) :
    Recorder.stopRecording now s = (s, Recorder.StopOutcome.tooShort) ∧
    (Recorder.stopRecording now s).1.isRecording = true ∧
    (Recorder.stopRecording now s).1.chunks = s.chunks := by
  have h : Recorder.stopRecording now s = (s, Recorder.StopOutcome.tooShort) := by
    simp [Recorder.stopRecording, hrec, hon, hman, hstart, hshort]
  exact ⟨h, by rw [h]; exact hon, by rw [h]⟩

theorem manual_stop_too_short_rejected_witness :
    manualRecState.hasRecorder = true ∧ manualRecState.isRecording = true ∧
    manualRecState.isVadEnabled = false ∧
    manualRecState.recordingStartTime = some 1000 ∧ 1200 - 1000 < 500 ∧
    Recorder.stopRecording 1200 manualRecState =
      (manualRecState, Recorder.StopOutcome.tooShort) :=
  ⟨rfl, rfl, rfl, rfl, by norm_num,
    (manual_stop_too_short_rejected 1200 1000 manualRecState rfl rfl rfl rfl
      (by norm_num)).1⟩

/-- C8: after the simulator stops a recording, the recorder is flagged
inactive, and any sequence of chunks delivered afterwards — however late —
leaves the state (in particular the chunk buffer) unchanged. -/
theorem no_chunks_after_stop (s : Recorder.SimState)
    (h1 : s.hasRecorder = true) (h2 : s.isRecording = true)
    (h3 : s.recorderRecording = true) :
    (Recorder.simStopRecording s).isRecorderActive = false ∧
    ∀ sizes : List ℕ,
      Recorder.deliverAll (Recorder.simStopRecording s) sizes = Recorder.simStopRecording s ∧
      (Recorder.deliverAll (Recorder.simStopRecording s) sizes).chunks =
        (Recorder.simStopRecording s).chunks := by
  have h := simStopRecording_inactive h1 h2 h3
  exact ⟨h, fun sizes => ⟨deliverAll_inactive h sizes, by rw [deliverAll_inactive h sizes]⟩⟩

theorem no_chunks_after_stop_witness :
    simRecordingState.hasRecorder = true ∧ simRecordingState.isRecording = true ∧
    simRecordingState.recorderRecording = true ∧
    (Recorder.deliverAll (Recorder.simStopRecording simRecordingState) [1932, 1932, 1932]).chunks =
      (Recorder.simStopRecording simRecordingState).chunks :=
  ⟨rfl, rfl, rfl,
    ((no_chunks_after_stop simRecordingState rfl rfl rfl).2 [1932, 1932, 1932]).2⟩

/-- C9 counterexample: a completed session with an empty chunk list totals
0 bytes (below 1024), yet processing takes the missing-audio branch, not the
TooSmall branch; the sink is still never invoked. -/
theorem empty_session_not_tooSmall_cex :
    List.sum ([] : List ℕ) < 1024 ∧
    (Recorder.processRecording []).outcome ≠ Recorder.ProcOutcome.tooSmall ∧
    (Recorder.processRecording []).outcome = Recorder.ProcOutcome.noChunks ∧
    (Recorder.processRecording []).sinkInvoked = false := by decide

/-- C9 (amended): a completed session with at least one chunk whose total
byte length is under 1024 fails with TooSmall, never invokes the downstream
sink, and leaves the controller idle (both flags cleared). -/
theorem small_session_tooSmall (chunks : List ℕ) (hne : chunks ≠ [])
    (hsmall : chunks.sum < 1024) :
    Recorder.processRecording chunks =
      ⟨Recorder.ProcOutcome.tooSmall, false, false, false⟩ := by
  have hlen : ¬ chunks.length = 0 := by
    simpa [List.length_eq_zero] using hne
  simp [Recorder.processRecording, hlen, hsmall]

theorem small_session_tooSmall_witness :
    ([100, 200] : List ℕ) ≠ [] ∧ List.sum [100, 200] < 1024 ∧
    Recorder.processRecording [100, 200] =
      ⟨Recorder.ProcOutcome.tooSmall, false, false, false⟩ :=
  ⟨by decide, by decide,
    small_session_tooSmall [100, 200] (by decide) (by decide)⟩

lemma noEarlyStart_append_end {log : List (ℕ × VADEvent)} (h : NoEarlyStart log) (t : ℕ) :
    NoEarlyStart (log ++ [(t, VADEvent.voiceEnded)]) := by
  rw [NoEarlyStart, List.pairwise_append]
  refine ⟨h, List.pairwise_singleton _ _, ?_⟩
  intro a _ b hb
  simp only [List.mem_singleton] at hb
  subst hb
  intro _ h2
  exact absurd h2 (by simp)

lemma noEarlyStart_append_start {log : List (ℕ × VADEvent)} {t : ℕ} (h : NoEarlyStart log)
    (hok : ∀ p ∈ log, p.2 = VADEvent.voiceEnded → p.1 + 1000 ≤ t) :
    NoEarlyStart (log ++ [(t, VADEvent.voiceStarted)]) := by
  rw [NoEarlyStart, List.pairwise_append]
  refine ⟨h, List.pairwise_singleton _ _, ?_⟩
  intro a ha b hb
  simp only [List.mem_singleton] at hb
  subst hb
  intro h1 _
  exact hok a ha h1

lemma VADInv.update_no_events {s s2 : VADState} {log : List (ℕ × VADEvent)} {tcur tnew : ℕ}
    (hI : VADInv s log tcur) (ht : tcur ≤ tnew)
    (hlist : s2.isListening = s.isListening)
    (hlast : s2.lastVoiceEndTime = s.lastVoiceEndTime)
    (htO : s2.isListening = false → s2.silenceTimeout = false) :
    VADInv s2 (log ++ []) tnew := by
  refine ⟨by simpa using hI.noEarly, ?_, ?_, htO⟩
  · intro p hp
    simp only [List.append_nil] at hp
    exact le_trans (hI.logBound p hp) ht
  · intro hl p hp he
    simp only [List.append_nil] at hp
    rw [hlast]
    exact hI.endsBound (hlist ▸ hl) p hp he

lemma vadStep_inv (i : VADInput) {s : VADState} {log : List (ℕ × VADEvent)} {tcur : ℕ}
    (hI : VADInv s log tcur) (ht : tcur ≤ i.time) :
    VADInv (vadStep i s).1 (log ++ (vadStep i s).2) i.time := by
  cases i with
  | frame now data =>
      simp only [VADInput.time] at ht
      rw [vadStep, detectStep]
      by_cases hl : s.isListening = false
      · rw [if_pos hl]
        exact hI.update_no_events ht rfl rfl fun _ => hI.timerOff hl
      · rw [if_neg hl]
        have hl' : s.isListening = true := by
          cases hb : s.isListening
          · exact absurd hb hl
          · rfl
        split_ifs with hdet hsp hsp2
        · exact hI.update_no_events ht rfl rfl fun h => absurd h hl
        · rw [handleVoiceStart]
          split_ifs with hcool
          · exact hI.update_no_events ht rfl rfl fun h => absurd h hl
          · refine ⟨?_, ?_, ?_, fun _ => rfl⟩
            · apply noEarlyStart_append_start hI.noEarly
              intro p hp he
              have h1 : p.1 ≤ s.lastVoiceEndTime := hI.endsBound hl' p hp he
              have h2 : ¬ (now - s.lastVoiceEndTime < 1000) := hcool
              omega
            · intro p hp
              rcases List.mem_append.mp hp with h | h
              · exact le_trans (hI.logBound p h) ht
              · simp only [List.mem_singleton] at h
                subst h
                exact le_rfl
            · intro _ p hp he
              rcases List.mem_append.mp hp with h | h
              · exact hI.endsBound hl' p h he
              · simp only [List.mem_singleton] at h
                subst h
                exact absurd he (by simp)
        · refine hI.update_no_events ht ?_ ?_ ?_
          · simp only [handlePotentialVoiceEnd]
            split_ifs <;> rfl
          · simp only [handlePotentialVoiceEnd]
            split_ifs <;> rfl
          · intro h
            rw [show (handlePotentialVoiceEnd
                {s with volumeHistory := pushHistory s (effectiveVolume s.sampleRate data)}).isListening
                = s.isListening from by
              simp only [handlePotentialVoiceEnd]; split_ifs <;> rfl] at h
            exact absurd h hl
        · exact hI.update_no_events ht rfl rfl fun h => absurd h hl
  | timer now =>
      simp only [VADInput.time] at ht
      rw [vadStep, silenceTimerFire]
      split_ifs with hto
      · exact hI.update_no_events ht rfl rfl hI.timerOff
      · rcases hss : s.speechStartTime with _ | t0
        · exact hI.update_no_events ht rfl rfl fun _ => rfl
        · dsimp only
          split_ifs with hdur
          · refine ⟨noEarlyStart_append_end hI.noEarly now, ?_, ?_, fun _ => rfl⟩
            · intro p hp
              rcases List.mem_append.mp hp with h | h
              · exact le_trans (hI.logBound p h) ht
              · simp only [List.mem_singleton] at h
                subst h
                exact le_rfl
            · intro _ p hp _
              rcases List.mem_append.mp hp with h | h
              · exact le_trans (hI.logBound p h) ht
              · simp only [List.mem_singleton] at h
                subst h
                exact le_rfl
          · exact hI.update_no_events ht rfl rfl fun _ => rfl
  | stopReq now =>
      simp only [VADInput.time] at ht
      rw [vadStep, stopStep]
      split_ifs with hsp
      · refine ⟨noEarlyStart_append_end hI.noEarly now, ?_,
          fun hl => absurd hl (by simp), fun _ => rfl⟩
        intro p hp
        rcases List.mem_append.mp hp with h | h
        · exact le_trans (hI.logBound p h) ht
        · simp only [List.mem_singleton] at h
          subst h
          exact le_rfl
      · refine ⟨by simpa using hI.noEarly, ?_,
          fun hl => absurd hl (by simp), fun _ => rfl⟩
        intro p hp
        simp only [List.append_nil] at hp
        exact le_trans (hI.logBound p hp) ht

lemma vadRun_noEarly (inputs : List VADInput) :
    ∀ (s : VADState) (log : List (ℕ × VADEvent)) (tcur : ℕ),
      VADInv s log tcur → TimesMono tcur inputs →
      NoEarlyStart (log ++ (vadRun s inputs).2) := by
  induction inputs with
  | nil =>
      intro s log tcur hI _
      simpa [vadRun] using hI.noEarly
  | cons i rest ih =>
      intro s log tcur hI hmono
      obtain ⟨h1, h2⟩ : tcur ≤ i.time ∧ TimesMono i.time rest := hmono
      rw [vadRun]
      have h3 := ih (vadStep i s).1 (log ++ (vadStep i s).2) i.time (vadStep_inv i hI h1) h2
      simpa [List.append_assoc] using h3

/-- C5: over any timed execution of a started detector, no `VoiceStarted` is
ever emitted less than 1000 ms after an earlier `VoiceEnded`; moreover a
frame arriving inside the cooldown window leaves the detector Silent and
emits nothing. -/
theorem voiceStarted_respects_cooldown (s0 : VADState) (inputs : List VADInput) (t0 : ℕ)
    (hlisten : s0.isListening = true) (hmono : TimesMono t0 inputs) :
    NoEarlyStart (vadRun s0 inputs).2 ∧
    ∀ (now : ℕ) (data : List ℕ) (s : VADState),
      s.isSpeaking = false → now - s.lastVoiceEndTime < 1000 →
      (vadStep (VADInput.frame now data) s).1.isSpeaking = false ∧
      (vadStep (VADInput.frame now data) s).2 = [] := by
  constructor
  · have hI : VADInv s0 [] t0 := by
      refine ⟨List.Pairwise.nil, by simp, by simp, ?_⟩
      intro h
      rw [hlisten] at h
      exact absurd h (by simp)
    have h := vadRun_noEarly inputs s0 [] t0 hI hmono
    simpa using h
  · intro now data s hs hcool
    rw [vadStep, detectStep]
    by_cases hl : s.isListening = false
    · rw [if_pos hl]
      exact ⟨hs, rfl⟩
    · rw [if_neg hl]
      split_ifs with hdet hsp hsp2
      · exact absurd hsp (by simp [hs])
      · rw [handleVoiceStart, if_pos hcool]
        exact ⟨hs, rfl⟩
      · exact absurd hsp2 (by simp [hs])
      · exact ⟨hs, rfl⟩

theorem voiceStarted_respects_cooldown_witness :
    blipInit.isListening = true ∧
    TimesMono 0 blipInputs ∧
    NoEarlyStart (vadRun blipInit blipInputs).2 := by
  refine ⟨rfl, ?_, ?_⟩
  · simp [TimesMono, blipInputs, VADInput.time]
  · exact (voiceStarted_respects_cooldown blipInit blipInputs 0 rfl
      (by simp [TimesMono, blipInputs, VADInput.time])).1

end VoiceAssistant
